import Mathlib

/-!
Verification of the core of the code-remote relay system: the relay-side
command lifecycle (src/server/server.py) and the agent-side dispatcher
(src/agent/agent.py), shallowly embedded in Lean.

Relay-side conventions:
* the SQLite `commands` table is a list of `CommandRow`s;
* `UPDATE ... WHERE id = ?` becomes a `List.map` over the table;
* timestamps are opaque strings supplied by the environment;
* `asyncio.sleep(0.5)` calls are counted as ticks: one tick is 0.5 s of
  wall-clock time;
* concurrent writes to the store by the websocket receive loop are
  abstracted as an observation function from poll index to the row the
  `SELECT ... WHERE id = ?` of that iteration returns.

Agent-side conventions:
* a canonical absolute path (the result of `Path(p).expanduser().resolve()`)
  is a list of components, `[]` standing for the filesystem root;
* handler inputs are taken to be already-resolved canonical paths
  (resolution itself is OS state outside the embedding, and the identity
  on such paths);
* the filesystem is an association list from canonical paths to entries;
* the behaviour of the spawned shell process is an oracle `ShellProc`
  recording how long the process would run and what it would produce.
-/

-- ===========================================================================
-- Relay side: src/server/server.py
-- ===========================================================================

/-- One row of the `commands` SQLite table (see `init_db` in server.py). -/
structure CommandRow where
  id : String
  type : String
  status : String
  command : Option String := none
  path : Option String := none
  content : Option String := none
  working_dir : Option String := none
  timeout : Nat := 60
  output : Option String := none
  error : Option String := none
  exit_code : Option Int := none
  created_at : String
  started_at : Option String := none
  completed_at : Option String := none
deriving DecidableEq, Repr

/-- The `commands` table. -/
abbrev Store := List CommandRow

/-- `SELECT * FROM commands WHERE id = ?` (ids are the primary key; the
first match is returned). -/
def getById (store : Store) (id : String) : Option CommandRow :=
  store.find? (fun r => r.id == id)

/-- Per-row effect of `UPDATE commands SET status = "running", started_at = ?
WHERE id = ?` (issued by `execute_command` after a successful push, and by
the backlog flush in `agent_websocket`).  The SQL update is unconditional:
it matches on the id only, with no guard on the current status. -/
def applyRunning (id t : String) (r : CommandRow) : CommandRow :=
  if r.id = id then { r with status := "running", started_at := some t } else r

/-- The whole-table effect of the same `UPDATE`. -/
def updateRunning (id t : String) (store : Store) : Store :=
  store.map (applyRunning id t)

/-- `row["status"] in ("completed", "failed", "timeout")`. -/
def isTerminal (s : String) : Bool :=
  s == "completed" || s == "failed" || s == "timeout"

/-- Result formatting in `execute_command` once a terminal row is observed:
output, then `"\n[stderr]: " + error` if the error is non-empty, then
`"\n[exit_code: N]"` if the exit code is present; strip; placeholder if
empty. -/
def formatResult (row : CommandRow) : String :=
  let output := row.output.getD ("")
  let error := row.error.getD ("")
  let t1 := output
  let t2 := if error ≠ "" then t1 ++ "\n[stderr]: " ++ error else t1
  let t3 := match row.exit_code with
    | some c => t2 ++ "\n[exit_code: " ++ toString c ++ "]"
    | none => t2
  if t3.trim = "" then ("(no output)") else t3.trim

/-- The poll loop of `execute_command`:
`for _ in range(timeout * 2 + 10): await asyncio.sleep(0.5); SELECT;
if the row is terminal, format and return`.

`polls i` is the row the `SELECT` observes at poll index `i` (the store is
concurrently written by the websocket receive loop).  The second component
of the result is the total number of `sleep(0.5)` calls performed, i.e. the
elapsed wall-clock time in half-seconds. -/
def pollLoop (polls : Nat → Option CommandRow) : Nat → Nat → String × Nat
  | 0, ticks => ("Command timed out waiting for response", ticks)
  | fuel + 1, ticks =>
    match polls ticks with
    | some row =>
      if isTerminal row.status then (formatResult row, ticks + 1)
      else pollLoop polls fuel (ticks + 1)
    | none => pollLoop polls fuel (ticks + 1)

/-- Environment of one `execute_command` invocation: the connection state
(`manager.is_agent_connected()`), the outcome of the websocket push
(`manager.send_command`), the generated `secrets.token_urlsafe(12)` id, the
two timestamps taken, and the poll observations. -/
structure ExecEnv where
  connected : Bool
  pushOk : Bool
  newId : String
  tCreate : String
  tRun : String
  polls : Nat → Option CommandRow

/-- The row inserted by `execute_command`'s `INSERT INTO commands ...`:
status `"pending"`, `created_at` set, result fields and the other two
timestamps left NULL. -/
def mkPendingRow (env : ExecEnv) (command_type : String) (timeout : Nat)
    (command path content working_dir : Option String) : CommandRow :=
  { id := env.newId, type := command_type, status := "pending",
    command := command, path := path, content := content,
    working_dir := working_dir, timeout := timeout,
    created_at := env.tCreate }

/-- `execute_command` (server.py): the Relay Bridge.  Returns the formatted
text handed back to the MCP tool caller, the store as left by this
invocation's own writes, and the number of `sleep(0.5)` ticks spent in the
poll loop. -/
def execute_command (env : ExecEnv) (command_type : String) (timeout : Nat)
    (command path content working_dir : Option String) (store : Store) :
    String × Store × Nat :=
  if !env.connected then
    ("Error: Mac agent is not connected. Please ensure the agent is running.", store, 0)
  else
    let store1 := store ++ [mkPendingRow env command_type timeout command path content working_dir]
    if !env.pushOk then
      ("Error: Failed to send command to agent", store1, 0)
    else
      let store2 := updateRunning env.newId env.tRun store1
      let pr := pollLoop env.polls (timeout * 2 + 10) 0
      (pr.1, store2, pr.2)

/-- An agent-to-relay `result` frame as read by `agent_websocket`'s receive
loop; every field is read with `data.get(...)` and may be absent. -/
structure ResultFrame where
  id : Option String := none
  status : Option String := none
  output : Option String := none
  error : Option String := none
  exit_code : Option Int := none
deriving DecidableEq, Repr

/-- Per-row effect of `UPDATE commands SET status = ?, output = ?, error = ?,
exit_code = ?, completed_at = ? WHERE id = ?` with the frame's fields;
`data.get("status", "completed")` defaults a missing status to
`"completed"`.  A frame without an id (`WHERE id = NULL`) matches no row. -/
def applyResult (f : ResultFrame) (t : String) (r : CommandRow) : CommandRow :=
  if f.id = some r.id then
    { r with status := f.status.getD ("completed"), output := f.output,
             error := f.error, exit_code := f.exit_code, completed_at := some t }
  else r

/-- The whole-table effect of a `result` frame in the receive loop. -/
def handleResult (f : ResultFrame) (t : String) (store : Store) : Store :=
  store.map (applyResult f t)

-- ===========================================================================
-- Agent side: src/agent/agent.py
-- ===========================================================================

/-- A canonical absolute path: `/a/b` is `["a", "b"]`, the root is `[]`. -/
abbrev PyPath := List String

/-- `str(path)` for a canonical absolute path. -/
def showPath (p : PyPath) : String := "/" ++ String.intercalate ("/") p

/-- `MAX_OUTPUT_SIZE = 1_000_000`. -/
def MAX_OUTPUT_SIZE : Nat := 1000000

/-- `ALLOWED_PATHS = [Path.home(), Path("/tmp"), Path("/var/tmp")]`; the
home directory is a parameter of the embedding. -/
def ALLOWED_PATHS (home : PyPath) : List PyPath :=
  [home, ["tmp"], ["var", "tmp"]]

/-- `path.parents` of a canonical path: every strict ancestor, i.e. every
proper leading slice.  (Only membership in this list is ever used.) -/
def pyParents (p : PyPath) : List PyPath :=
  (List.range p.length).map (fun k => p.take k)

/-- `is_path_allowed` (agent.py): `path == allowed or allowed in
path.parents` for some allowed root.  The input is the already-resolved
canonical path. -/
def is_path_allowed (home : PyPath) (p : PyPath) : Bool :=
  (ALLOWED_PATHS home).any (fun allowed =>
    decide (p = allowed) || decide (allowed ∈ pyParents p))

/-- Python string slicing `s[:n]`. -/
def pyTake (s : String) (n : Nat) : String := ⟨s.data.take n⟩

/-- `if len(s) > MAX_OUTPUT_SIZE: s = s[:MAX_OUTPUT_SIZE] + marker` — the
truncation applied to each output/error/content stream independently. -/
def truncateWith (marker s : String) : String :=
  if s.length > MAX_OUTPUT_SIZE then pyTake s MAX_OUTPUT_SIZE ++ marker else s

/-- The uniform result dict every agent handler returns; keys absent from
the Python dict are `none`. -/
structure AgentResult where
  status : String
  output : Option String := none
  error : Option String := none
  exit_code : Option Int := none
deriving DecidableEq, Repr

/-- A filesystem object: a regular file with text content, or a directory. -/
inductive Entry
  | file (content : String)
  | dir
deriving DecidableEq, Repr

/-- Filesystem state: association list from canonical path to entry (first
match wins; `fsSet` keeps keys unique). -/
abbrev FS := List (PyPath × Entry)

/-- Look a path up in the filesystem. -/
def fsGet : FS → PyPath → Option Entry
  | [], _ => none
  | x :: rest, p => if x.1 = p then some x.2 else fsGet rest p

/-- Bind a path to an entry, replacing any previous binding. -/
def fsSet (fs : FS) (p : PyPath) (e : Entry) : FS :=
  (p, e) :: fs.filter (fun x => !decide (x.1 = p))

/-- The chain `/ , ... , parent` of paths that
`path.parent.mkdir(parents=True, exist_ok=True)` requires to be (or
become) directories. -/
def ancestorChain (parent : PyPath) : List PyPath :=
  (List.range (parent.length + 1)).map (fun k => parent.take k)

/-- Whether `fs` holds a regular file at `q`. -/
def isFileAt (fs : FS) (q : PyPath) : Bool :=
  match fsGet fs q with
  | some (Entry.file _) => true
  | _ => false

/-- `mkdir(parents=True, exist_ok=True)` on `parent` succeeds iff no
required ancestor already exists as a regular file. -/
def mkdirOk (fs : FS) (parent : PyPath) : Bool :=
  (ancestorChain parent).all (fun q => !isFileAt fs q)

/-- Create every listed path that is still absent as a directory. -/
def createMissingDirs : FS → List PyPath → FS
  | fs, [] => fs
  | fs, q :: qs =>
    match fsGet fs q with
    | some _ => createMissingDirs fs qs
    | none => createMissingDirs (fsSet fs q Entry.dir) qs

/-- `path.parent.mkdir(parents=True, exist_ok=True)`: `none` models the
`OSError` raised when an ancestor exists as a regular file (nothing has
been created when it is raised); otherwise every missing ancestor
directory is created. -/
def mkdirParents (fs : FS) (parent : PyPath) : Option FS :=
  if mkdirOk fs parent then some (createMissingDirs fs (ancestorChain parent)) else none

/-- `str(e)` of the `IsADirectoryError` raised by `path.write_text` on a
directory (the exact interpreter text is irrelevant to the theorems). -/
def isADirectoryMsg (p : PyPath) : String :=
  "[Errno 21] Is a directory: " ++ showPath p

/-- `str(e)` of the `OSError` raised by `mkdir` when an ancestor exists as
a regular file (exact interpreter text irrelevant to the theorems). -/
def mkdirFailMsg (p : PyPath) : String :=
  "[Errno 20] Not a directory: " ++ showPath p

/-- `read_file` (agent.py). -/
def read_file (home : PyPath) (fs : FS) (p : PyPath) : AgentResult :=
  if !is_path_allowed home p then
    { status := "failed", error := some ("Path not allowed: " ++ showPath p),
      exit_code := some 1 }
  else
    match fsGet fs p with
    | none =>
      { status := "failed", error := some ("File not found: " ++ showPath p),
        exit_code := some 1 }
    | some Entry.dir =>
      { status := "failed", error := some ("Not a file: " ++ showPath p),
        exit_code := some 1 }
    | some (Entry.file content) =>
      { status := "completed",
        output := some (truncateWith ("\n... (content truncated)") content),
        exit_code := some 0 }

/-- `write_file` (agent.py).  Returns the handler result and the
filesystem it leaves behind. -/
def write_file (home : PyPath) (fs : FS) (p : PyPath) (content : String) :
    AgentResult × FS :=
  if !is_path_allowed home p then
    ({ status := "failed", error := some ("Path not allowed: " ++ showPath p),
       exit_code := some 1 }, fs)
  else
    match mkdirParents fs p.dropLast with
    | none =>
      ({ status := "failed", error := some (mkdirFailMsg p), exit_code := some 1 }, fs)
    | some fs2 =>
      match fsGet fs2 p with
      | some Entry.dir =>
        ({ status := "failed", error := some (isADirectoryMsg p), exit_code := some 1 }, fs2)
      | _ =>
        ({ status := "completed",
           output := some ("Written " ++ toString content.length ++ " bytes to " ++ showPath p),
           exit_code := some 0 }, fsSet fs2 p (Entry.file content))

/-- `entry.stat().st_size if entry.is_file() else 0`. -/
def entrySize : Entry → Nat
  | Entry.file c => c.utf8ByteSize
  | Entry.dir => 0

/-- One line of `list_dir` output: type, tab, size, tab, name. -/
def entryLine (name : String) (e : Entry) : String :=
  (match e with | Entry.dir => ("dir") | Entry.file _ => ("file")) ++ "\t" ++
    toString (entrySize e) ++ "\t" ++ name

/-- Insert into a name-sorted child list. -/
def insertSorted (a : String × Entry) : List (String × Entry) → List (String × Entry)
  | [] => [a]
  | b :: rest => if a.1 ≤ b.1 then a :: b :: rest else b :: insertSorted a rest

/-- `sorted(...)` of a child list by name. -/
def sortByName : List (String × Entry) → List (String × Entry)
  | [] => []
  | a :: rest => insertSorted a (sortByName rest)

/-- The direct children of `p` in `fs`, with their names. -/
def dirChildren (fs : FS) (p : PyPath) : List (String × Entry) :=
  (fs.filter (fun x => decide (x.1.dropLast = p) && !decide (x.1 = []))).map
    (fun x => (x.1.getLastD (""), x.2))

/-- `list_dir` (agent.py). -/
def list_dir (home : PyPath) (fs : FS) (p : PyPath) : AgentResult :=
  if !is_path_allowed home p then
    { status := "failed", error := some ("Path not allowed: " ++ showPath p),
      exit_code := some 1 }
  else
    match fsGet fs p with
    | none =>
      { status := "failed", error := some ("Directory not found: " ++ showPath p),
        exit_code := some 1 }
    | some (Entry.file _) =>
      { status := "failed", error := some ("Not a directory: " ++ showPath p),
        exit_code := some 1 }
    | some Entry.dir =>
      { status := "completed",
        output := some (String.intercalate ("\n")
          ((sortByName (dirChildren fs p)).map (fun x => entryLine x.1 x.2))),
        exit_code := some 0 }

/-- Oracle describing what the spawned shell process would do: how many
seconds `process.communicate()` takes, the raw streams, and the exit code.
`spawnErr` models an exception from `create_subprocess_shell` itself. -/
structure ShellProc where
  runtime : Nat
  stdout : String
  stderr : String
  returncode : Int
  spawnErr : Option String := none
deriving DecidableEq, Repr

/-- What has happened to the shell process by the time the handler
returns. -/
structure ShellEffect where
  spawned : Bool
  runningAfter : Bool
deriving DecidableEq, Repr

/-- Body of `execute_shell` past the working-directory gate: spawn, wait
with `asyncio.wait_for(process.communicate(), timeout)`, `kill` plus
`wait` on expiry, decode and truncate otherwise. -/
def execShellBody (proc : ShellProc) (timeout : Nat) : AgentResult × ShellEffect :=
  match proc.spawnErr with
  | some msg =>
    ({ status := "failed", error := some msg, exit_code := some 1 },
     { spawned := false, runningAfter := false })
  | none =>
    if proc.runtime > timeout then
      ({ status := "timeout",
         error := some ("Command timed out after " ++ toString timeout ++ " seconds"),
         exit_code := some (-1) },
       { spawned := true, runningAfter := false })
    else
      let output := truncateWith ("\n... (output truncated)") proc.stdout
      let error := truncateWith ("\n... (error truncated)") proc.stderr
      ({ status := if proc.returncode = 0 then ("completed") else ("failed"),
         output := some output,
         error := if error = "" then none else some error,
         exit_code := some proc.returncode },
       { spawned := true, runningAfter := false })

/-- `execute_shell` (agent.py).  `working_dir` is the already-resolved
optional working directory; its gate runs before the process is
spawned. -/
def execute_shell (home : PyPath) (proc : ShellProc) (working_dir : Option PyPath)
    (timeout : Nat) : AgentResult × ShellEffect :=
  match working_dir with
  | some wd =>
    if !is_path_allowed home wd then
      ({ status := "failed",
         error := some ("Working directory not allowed: " ++ showPath wd),
         exit_code := some 1 },
       { spawned := false, runningAfter := false })
    else execShellBody proc timeout
  | none => execShellBody proc timeout

-- ===========================================================================
-- Poll-loop lemmas
-- ===========================================================================

/-- No terminal row is observed at poll index `i`. -/
def NoTerminalAt (polls : Nat → Option CommandRow) (i : Nat) : Prop :=
  ∀ row, polls i = some row → isTerminal row.status = false

theorem pollLoop_ticks_le (polls : Nat → Option CommandRow) :
    ∀ (fuel t : Nat), (pollLoop polls fuel t).2 ≤ t + fuel := by
  intro fuel
  induction fuel with
  | zero => intro t; simp [pollLoop]
  | succ n ih =>
    intro t
    have hn := ih (t + 1)
    simp only [pollLoop]
    split
    · split
      · simp only
        omega
      · omega
    · omega

theorem pollLoop_exhausted (polls : Nat → Option CommandRow) :
    ∀ (fuel t : Nat), (∀ j, t ≤ j → j < t + fuel → NoTerminalAt polls j) →
      pollLoop polls fuel t = ("Command timed out waiting for response", t + fuel) := by
  intro fuel
  induction fuel with
  | zero => intro t _; simp [pollLoop]
  | succ n ih =>
    intro t h
    have hrec : pollLoop polls n (t + 1)
        = ("Command timed out waiting for response", t + 1 + n) :=
      ih (t + 1) (fun j h1 h2 => h j (by omega) (by omega))
    have harith : t + 1 + n = t + (n + 1) := by omega
    simp only [pollLoop]
    split
    · next row hp =>
      have hterm : isTerminal row.status = false :=
        h t (Nat.le_refl t) (by omega) row hp
      simp [hterm, hrec, harith]
    · simp only [hrec, harith]

-- ===========================================================================
-- Relay Bridge theorems (C1, C3, C8)
-- ===========================================================================

/-- C1: for every invocation of `execute_command` with timeout `T` on a
connected agent and successful push, the wait for the command record to
reach a terminal state is bounded by `T * 2 + 10` poll ticks, each tick
being one `asyncio.sleep(0.5)` (so at most `T + 5 ≤ T * 2 + 10` seconds of
wall-clock waiting, i.e. within a budget of `T * 2` plus a fixed grace
period); the budget of `T * 2 + 10` ticks is the maximum wait duration,
attained exactly when no terminal state is observed; and if the bound is
exhausted without a terminal state, the literal
`"Command timed out waiting for response"` message is returned. -/
theorem execute_command_bounded_wait
    (env : ExecEnv) (command_type : String) (timeout : Nat)
    (command path content working_dir : Option String) (store : Store)
    (hc : env.connected = true) (hp : env.pushOk = true) :
    (execute_command env command_type timeout command path content working_dir store).2.2
        ≤ timeout * 2 + 10 ∧
    ((∀ i, i < timeout * 2 + 10 → NoTerminalAt env.polls i) →
      (execute_command env command_type timeout command path content working_dir store).1
          = "Command timed out waiting for response" ∧
      (execute_command env command_type timeout command path content working_dir store).2.2
          = timeout * 2 + 10) := by
  constructor
  · simp only [execute_command, hc, hp, Bool.not_true, Bool.false_eq_true, if_false]
    have := pollLoop_ticks_le env.polls (timeout * 2 + 10) 0
    simpa using this
  · intro hno
    have he := pollLoop_exhausted env.polls (timeout * 2 + 10) 0
      (fun j _ hj => hno j (by omega))
    simp only [execute_command, hc, hp, Bool.not_true, Bool.false_eq_true, if_false]
    simp [he]

/-- Concrete environment for the C1 witness: connected, push succeeds, and
the record is never observed terminal. -/
def c1Env : ExecEnv :=
  { connected := true, pushOk := true, newId := "id1", tCreate := "t0",
    tRun := "t1", polls := fun _ => none }

theorem execute_command_bounded_wait_witness :
    (execute_command c1Env ("shell") 0 (some ("true")) none none none []).2.2 ≤ 0 * 2 + 10 ∧
    (execute_command c1Env ("shell") 0 (some ("true")) none none none []).1
        = "Command timed out waiting for response" ∧
    (execute_command c1Env ("shell") 0 (some ("true")) none none none []).2.2 = 0 * 2 + 10 :=
  ⟨(execute_command_bounded_wait c1Env ("shell") 0 (some ("true")) none none none [] rfl rfl).1,
   (execute_command_bounded_wait c1Env ("shell") 0 (some ("true")) none none none [] rfl rfl).2
     (fun _ _ _ h => Option.noConfusion h)⟩

/-- C3: when no agent session is active, `execute_command` returns
immediately (zero poll ticks) with the fixed not-connected message and the
store is unchanged — no command record is created. -/
theorem execute_command_not_connected
    (env : ExecEnv) (command_type : String) (timeout : Nat)
    (command path content working_dir : Option String) (store : Store)
    (hc : env.connected = false) :
    execute_command env command_type timeout command path content working_dir store
      = ("Error: Mac agent is not connected. Please ensure the agent is running.",
         store, 0) := by
  simp [execute_command, hc]

/-- Concrete environment for the C3 witness: agent not connected. -/
def c3Env : ExecEnv :=
  { connected := false, pushOk := true, newId := "id3", tCreate := "t0",
    tRun := "t1", polls := fun _ => none }

theorem execute_command_not_connected_witness :
    execute_command c3Env ("read_file") 60 none (some ("/tmp/x")) none none []
      = ("Error: Mac agent is not connected. Please ensure the agent is running.",
         [], 0) :=
  execute_command_not_connected c3Env ("read_file") 60 none (some ("/tmp/x")) none none [] rfl

theorem getById_append_fresh (store : Store) (row : CommandRow)
    (h : ∀ r ∈ store, r.id ≠ row.id) :
    getById (store ++ [row]) row.id = some row := by
  induction store with
  | nil => simp [getById, List.find?]
  | cons r rest ih =>
    have hr : r.id ≠ row.id := h r (List.mem_cons_self r rest)
    have hrest : ∀ x ∈ rest, x.id ≠ row.id :=
      fun x hx => h x (List.mem_cons_of_mem r hx)
    simp only [List.cons_append, getById, List.find?]
    rw [show (r.id == row.id) = false by simpa using hr]
    exact ih hrest

/-- C8: when the agent is connected but the push fails, `execute_command`
returns the fixed push-failure error message without polling and leaves
exactly one new record in the store, still `pending` with `started_at`
unset: the transition to `running` happens only after a successful push.
If the generated id is fresh, looking it up finds that pending record. -/
theorem execute_command_push_failed
    (env : ExecEnv) (command_type : String) (timeout : Nat)
    (command path content working_dir : Option String) (store : Store)
    (hc : env.connected = true) (hp : env.pushOk = false) :
    execute_command env command_type timeout command path content working_dir store
      = ("Error: Failed to send command to agent",
         store ++ [mkPendingRow env command_type timeout command path content working_dir],
         0) ∧
    (mkPendingRow env command_type timeout command path content working_dir).status
        = "pending" ∧
    (mkPendingRow env command_type timeout command path content working_dir).started_at
        = none ∧
    ((∀ r ∈ store, r.id ≠ env.newId) →
      getById (store ++ [mkPendingRow env command_type timeout command path content working_dir])
          env.newId
        = some (mkPendingRow env command_type timeout command path content working_dir)) := by
  refine ⟨by simp [execute_command, hc, hp], rfl, rfl, fun hfresh => ?_⟩
  exact getById_append_fresh store _ hfresh

/-- Concrete environment for the C8 witness: connected, push fails. -/
def c8Env : ExecEnv :=
  { connected := true, pushOk := false, newId := "id8", tCreate := "t0",
    tRun := "t1", polls := fun _ => none }

theorem execute_command_push_failed_witness :
    execute_command c8Env ("shell") 60 (some ("ls")) none none none []
      = ("Error: Failed to send command to agent",
         [mkPendingRow c8Env ("shell") 60 (some ("ls")) none none none], 0) ∧
    (mkPendingRow c8Env ("shell") 60 (some ("ls")) none none none).status = "pending" ∧
    (mkPendingRow c8Env ("shell") 60 (some ("ls")) none none none).started_at = none ∧
    getById [mkPendingRow c8Env ("shell") 60 (some ("ls")) none none none] ("id8")
      = some (mkPendingRow c8Env ("shell") 60 (some ("ls")) none none none) := by
  have h := execute_command_push_failed c8Env ("shell") 60 (some ("ls")) none none none []
    rfl rfl
  exact ⟨h.1, h.2.1, h.2.2.1, h.2.2.2 (fun r hr => absurd hr (List.not_mem_nil r))⟩

-- ===========================================================================
-- Command store monotonicity (C2) and result recording (C10)
-- ===========================================================================

/-- A concrete command record that has already reached the terminal status
`"completed"`. -/
def c2Row : CommandRow :=
  { id := "c1", type := "shell", status := "completed", command := some ("echo hi"),
    timeout := 60, output := some ("hi"), exit_code := some 0,
    created_at := "t0", started_at := some ("t1"), completed_at := some ("t2") }

/-- C2 counterexample: the `mark_running`-style SQL update
(`UPDATE commands SET status = "running", started_at = ? WHERE id = ?`) is
unconditional — applied to a record that has already reached the terminal
status `"completed"`, it is not a no-op: the record's status changes from
`"completed"` back to `"running"`, refuting the claimed monotonicity. -/
theorem updateRunning_not_noop_on_terminal :
    isTerminal c2Row.status = true ∧
    (applyRunning ("c1") ("t3") c2Row).status = "running" ∧
    (applyRunning ("c1") ("t3") c2Row).status ≠ c2Row.status ∧
    updateRunning ("c1") ("t3") [c2Row] ≠ [c2Row] := by
  decide

/-- C2 amended: a `mark_running`-style update for a missing record id is a
no-op on the store; for an existing record with that id — terminal or not —
it overwrites `status` to `"running"` and sets `started_at`, while
`output`, `error` and `exit_code` are never changed; records with other
ids are untouched. -/
theorem updateRunning_effect (store : Store) (id t : String) :
    ((∀ r ∈ store, r.id ≠ id) → updateRunning id t store = store) ∧
    (∀ r ∈ store,
      (applyRunning id t r).output = r.output ∧
      (applyRunning id t r).error = r.error ∧
      (applyRunning id t r).exit_code = r.exit_code ∧
      (r.id = id → (applyRunning id t r).status = "running" ∧
        (applyRunning id t r).started_at = some t) ∧
      (r.id ≠ id → applyRunning id t r = r) ∧
      applyRunning id t r ∈ updateRunning id t store) := by
  constructor
  · intro hfresh
    unfold updateRunning
    have hcong : store.map (applyRunning id t) = store.map (fun r => r) :=
      List.map_congr_left (fun r hr => by simp [applyRunning, hfresh r hr])
    rw [hcong, List.map_id']
  · intro r hr
    refine ⟨?_, ?_, ?_, fun hid => ?_, fun hid => ?_, List.mem_map_of_mem _ hr⟩
    · unfold applyRunning; split <;> rfl
    · unfold applyRunning; split <;> rfl
    · unfold applyRunning; split <;> rfl
    · simp [applyRunning, hid]
    · simp [applyRunning, hid]

/-- A concrete non-terminal record for the C2 witness. -/
def c2bRow : CommandRow :=
  { id := "a1", type := "shell", status := "pending", created_at := "t0" }

theorem updateRunning_effect_witness :
    updateRunning ("zz") ("t9") [c2bRow] = [c2bRow] ∧
    (applyRunning ("a1") ("t9") c2bRow).status = "running" ∧
    (applyRunning ("a1") ("t9") c2bRow).output = c2bRow.output :=
  ⟨(updateRunning_effect [c2bRow] ("zz") ("t9")).1
      (by intro r hr; rw [List.mem_singleton] at hr; subst hr; decide),
   (((updateRunning_effect [c2bRow] ("a1") ("t9")).2 c2bRow
      (List.mem_singleton.mpr rfl)).2.2.2.1 rfl).1,
   ((updateRunning_effect [c2bRow] ("a1") ("t9")).2 c2bRow
      (List.mem_singleton.mpr rfl)).1⟩

/-- C10: a `result` frame whose `status` field is absent is recorded with
status `"completed"` — `data.get("status", "completed")` defaults the
missing status — so every row the frame's id matches ends up
`"completed"` in the store left by the receive loop. -/
theorem handleResult_missing_status_completed
    (f : ResultFrame) (t : String) (store : Store) (r : CommandRow)
    (hs : f.status = none) (hid : f.id = some r.id) (hr : r ∈ store) :
    (applyResult f t r).status = "completed" ∧
    applyResult f t r ∈ handleResult f t store := by
  constructor
  · simp [applyResult, hid, hs]
  · exact List.mem_map_of_mem _ hr

/-- The concrete status-less frame for the C10 witness. -/
def c10Frame : ResultFrame :=
  { id := some ("a1"), output := some ("done"), exit_code := some 0 }

theorem handleResult_missing_status_completed_witness :
    (applyResult c10Frame ("t5") c2bRow).status = "completed" ∧
    applyResult c10Frame ("t5") c2bRow ∈ handleResult c10Frame ("t5") [c2bRow] :=
  handleResult_missing_status_completed c10Frame ("t5") [c2bRow] c2bRow rfl rfl
    (List.mem_singleton.mpr rfl)

-- ===========================================================================
-- Agent Dispatcher theorems (C4, C5, C9, C7)
-- ===========================================================================

/-- C4: for every canonical path rejected by the allow-list gate, each
path-taking handler — `shell` with that working directory, `read_file`,
`write_file`, `list_dir` — returns `status = "failed"` with an error
message naming the rejection and `exit_code = 1`, and performs no
filesystem mutation: `write_file` leaves the filesystem untouched (no
parent directory is created, nothing is written) and the shell handler
never spawns a process. -/
theorem path_gate_rejects
    (home : PyPath) (fs : FS) (p : PyPath) (content : String)
    (proc : ShellProc) (timeout : Nat)
    (hallow : is_path_allowed home p = false) :
    read_file home fs p
        = { status := "failed", error := some ("Path not allowed: " ++ showPath p),
            exit_code := some 1 } ∧
    write_file home fs p content
        = ({ status := "failed", error := some ("Path not allowed: " ++ showPath p),
             exit_code := some 1 }, fs) ∧
    list_dir home fs p
        = { status := "failed", error := some ("Path not allowed: " ++ showPath p),
            exit_code := some 1 } ∧
    execute_shell home proc (some p) timeout
        = ({ status := "failed",
             error := some ("Working directory not allowed: " ++ showPath p),
             exit_code := some 1 },
           { spawned := false, runningAfter := false }) := by
  refine ⟨?_, ?_, ?_, ?_⟩ <;>
    simp [read_file, write_file, list_dir, execute_shell, hallow]

theorem path_gate_rejects_witness :
    read_file [("home" : String), "u"] [] [("etc" : String), "passwd"]
        = { status := "failed",
            error := some ("Path not allowed: " ++ showPath [("etc" : String), "passwd"]),
            exit_code := some 1 } ∧
    write_file [("home" : String), "u"] [] [("etc" : String), "passwd"] ("x")
        = ({ status := "failed",
             error := some ("Path not allowed: " ++ showPath [("etc" : String), "passwd"]),
             exit_code := some 1 }, []) ∧
    list_dir [("home" : String), "u"] [] [("etc" : String), "passwd"]
        = { status := "failed",
            error := some ("Path not allowed: " ++ showPath [("etc" : String), "passwd"]),
            exit_code := some 1 } ∧
    execute_shell [("home" : String), "u"]
        { runtime := 0, stdout := "", stderr := "", returncode := 0 }
        (some [("etc" : String), "passwd"]) 1
        = ({ status := "failed",
             error := some ("Working directory not allowed: "
               ++ showPath [("etc" : String), "passwd"]),
             exit_code := some 1 },
           { spawned := false, runningAfter := false }) :=
  path_gate_rejects [("home" : String), "u"] [] [("etc" : String), "passwd"] ("x")
    { runtime := 0, stdout := "", stderr := "", returncode := 0 } 1 (by decide)

/-- C5: a shell command whose runtime exceeds its timeout (with the
working-directory gate passed, so the process is actually spawned) yields
`status = "timeout"`, `exit_code = -1` and the literal timed-out error
message, and the spawned process is killed, hence no longer running when
the handler returns. -/
theorem execute_shell_timeout
    (home : PyPath) (proc : ShellProc) (working_dir : Option PyPath) (timeout : Nat)
    (hgate : ∀ wd, working_dir = some wd → is_path_allowed home wd = true)
    (hspawn : proc.spawnErr = none)
    (hrt : proc.runtime > timeout) :
    execute_shell home proc working_dir timeout
      = ({ status := "timeout",
           error := some ("Command timed out after " ++ toString timeout ++ " seconds"),
           exit_code := some (-1) },
         { spawned := true, runningAfter := false }) := by
  cases working_dir with
  | none => simp [execute_shell, execShellBody, hspawn, hrt]
  | some wd => simp [execute_shell, execShellBody, hgate wd rfl, hspawn, hrt]

theorem execute_shell_timeout_witness :
    execute_shell [("home" : String), "u"]
        { runtime := 7, stdout := "", stderr := "", returncode := 0 } none 5
      = ({ status := "timeout",
           error := some ("Command timed out after " ++ toString 5 ++ " seconds"),
           exit_code := some (-1) },
         { spawned := true, runningAfter := false }) :=
  execute_shell_timeout [("home" : String), "u"]
    { runtime := 7, stdout := "", stderr := "", returncode := 0 } none 5
    (fun _ h => Option.noConfusion h) rfl (by decide)

/-- C9: a shell command that runs to completion within its timeout reports
status `"completed"` exactly when the process exit code is `0`; any
non-zero exit code yields `"failed"`, and in either case the (truncated)
standard output is still returned and the exit code is reported. -/
theorem execute_shell_status_iff_exit_zero
    (home : PyPath) (proc : ShellProc) (working_dir : Option PyPath) (timeout : Nat)
    (hgate : ∀ wd, working_dir = some wd → is_path_allowed home wd = true)
    (hspawn : proc.spawnErr = none)
    (hrt : proc.runtime ≤ timeout) :
    ((execute_shell home proc working_dir timeout).1.status = "completed"
        ↔ proc.returncode = 0) ∧
    (proc.returncode ≠ 0 →
      (execute_shell home proc working_dir timeout).1.status = "failed") ∧
    (execute_shell home proc working_dir timeout).1.output
        = some (truncateWith ("\n... (output truncated)") proc.stdout) ∧
    (execute_shell home proc working_dir timeout).1.exit_code = some proc.returncode := by
  have hnt : ¬(proc.runtime > timeout) := Nat.not_lt.mpr hrt
  have hbody : execute_shell home proc working_dir timeout = execShellBody proc timeout := by
    cases working_dir with
    | none => rfl
    | some wd => simp [execute_shell, hgate wd rfl]
  rw [hbody]
  simp only [execShellBody, hspawn, hnt, if_false]
  by_cases hrc : proc.returncode = 0
  · simp [hrc]
  · simp [hrc]

theorem execute_shell_status_iff_exit_zero_witness :
    ((execute_shell [("home" : String), "u"]
        { runtime := 1, stdout := "hi", stderr := "", returncode := 0 } none 5).1.status
          = "completed"
        ↔ (0 : Int) = 0) ∧
    (execute_shell [("home" : String), "u"]
        { runtime := 1, stdout := "oops", stderr := "", returncode := 2 } none 5).1.status
          = "failed" ∧
    (execute_shell [("home" : String), "u"]
        { runtime := 1, stdout := "oops", stderr := "", returncode := 2 } none 5).1.output
          = some (truncateWith ("\n... (output truncated)") ("oops")) :=
  ⟨(execute_shell_status_iff_exit_zero [("home" : String), "u"]
      { runtime := 1, stdout := "hi", stderr := "", returncode := 0 } none 5
      (fun _ h => Option.noConfusion h) rfl (by decide)).1,
   (execute_shell_status_iff_exit_zero [("home" : String), "u"]
      { runtime := 1, stdout := "oops", stderr := "", returncode := 2 } none 5
      (fun _ h => Option.noConfusion h) rfl (by decide)).2.1 (by decide),
   (execute_shell_status_iff_exit_zero [("home" : String), "u"]
      { runtime := 1, stdout := "oops", stderr := "", returncode := 2 } none 5
      (fun _ h => Option.noConfusion h) rfl (by decide)).2.2.1⟩

theorem pyTake_length (s : String) (n : Nat) :
    (pyTake s n).length = min n s.length := by
  cases s with
  | mk data =>
    show (data.take n).length = min n data.length
    exact List.length_take n data

theorem string_length_append (a b : String) :
    (a ++ b).length = a.length + b.length := by
  cases a with
  | mk da =>
    cases b with
    | mk db =>
      show (da ++ db).length = da.length + db.length
      exact List.length_append da db

/-- C7: each stream is truncated independently against the fixed
1,000,000-character cap: a stream longer than the cap is cut to exactly
the cap length and suffixed with the literal truncation marker (so the
result has length exactly cap + marker length); a stream whose length is
at most the cap is returned unmodified; hence the returned length never
exceeds cap + marker length. -/
theorem truncateWith_spec (marker s : String) :
    (s.length > MAX_OUTPUT_SIZE →
      truncateWith marker s = pyTake s MAX_OUTPUT_SIZE ++ marker ∧
      (pyTake s MAX_OUTPUT_SIZE).length = MAX_OUTPUT_SIZE ∧
      (truncateWith marker s).length = MAX_OUTPUT_SIZE + marker.length) ∧
    (s.length ≤ MAX_OUTPUT_SIZE → truncateWith marker s = s) ∧
    (truncateWith marker s).length ≤ MAX_OUTPUT_SIZE + marker.length := by
  refine ⟨fun hlong => ?_, fun hshort => ?_, ?_⟩
  · have htrunc : truncateWith marker s = pyTake s MAX_OUTPUT_SIZE ++ marker := by
      simp [truncateWith, hlong]
    have hcap : (pyTake s MAX_OUTPUT_SIZE).length = MAX_OUTPUT_SIZE := by
      rw [pyTake_length]
      omega
    refine ⟨htrunc, hcap, ?_⟩
    rw [htrunc, string_length_append, hcap]
  · simp [truncateWith, Nat.not_lt.mpr hshort]
  · by_cases hlong : s.length > MAX_OUTPUT_SIZE
    · have : (truncateWith marker s).length = MAX_OUTPUT_SIZE + marker.length := by
        have htrunc : truncateWith marker s = pyTake s MAX_OUTPUT_SIZE ++ marker := by
          simp [truncateWith, hlong]
        rw [htrunc, string_length_append, pyTake_length]
        omega
      omega
    · have heq : truncateWith marker s = s := by
        simp [truncateWith, hlong]
      rw [heq]
      omega

/-- A concrete string one character longer than the truncation cap. -/
def bigA : String := ⟨List.replicate (MAX_OUTPUT_SIZE + 1) 'a'⟩

theorem bigA_length : bigA.length = MAX_OUTPUT_SIZE + 1 := by
  show (List.replicate (MAX_OUTPUT_SIZE + 1) 'a').length = MAX_OUTPUT_SIZE + 1
  rw [List.length_replicate]

theorem truncateWith_spec_witness :
    truncateWith ("\n... (output truncated)") bigA
        = pyTake bigA MAX_OUTPUT_SIZE ++ "\n... (output truncated)" ∧
    truncateWith ("\n... (output truncated)") ("hi") = "hi" :=
  ⟨((truncateWith_spec ("\n... (output truncated)") bigA).1
      (by rw [bigA_length]; omega)).1,
   (truncateWith_spec ("\n... (output truncated)") ("hi")).2.1 (by decide)⟩

-- ===========================================================================
-- Filesystem lemmas and the write/read round trip (C6)
-- ===========================================================================

theorem fsGet_fsSet_self (fs : FS) (p : PyPath) (e : Entry) :
    fsGet (fsSet fs p e) p = some e := by
  simp [fsSet, fsGet]

theorem fsGet_filter_ne (fs : FS) (p r : PyPath) (h : r ≠ p) :
    fsGet (fs.filter (fun x => !decide (x.1 = p))) r = fsGet fs r := by
  induction fs with
  | nil => rfl
  | cons x rest ih =>
    by_cases hx : x.1 = p
    · have hxr : x.1 ≠ r := by rw [hx]; exact fun he => h he.symm
      simp [List.filter_cons, hx, fsGet, hxr, ih]
      rw [if_neg (fun he => h he.symm)]
    · simp only [List.filter_cons, decide_eq_true_eq]
      rw [if_pos (by simp [hx])]
      simp only [fsGet]
      rw [ih]

theorem fsGet_fsSet_ne (fs : FS) (p : PyPath) (e : Entry) (r : PyPath) (h : r ≠ p) :
    fsGet (fsSet fs p e) r = fsGet fs r := by
  have hpr : p ≠ r := fun he => h he.symm
  simp only [fsSet, fsGet]
  rw [if_neg hpr, fsGet_filter_ne fs p r h]

theorem createMissingDirs_notmem (qs : List PyPath) (fs : FS) (r : PyPath)
    (h : r ∉ qs) :
    fsGet (createMissingDirs fs qs) r = fsGet fs r := by
  induction qs generalizing fs with
  | nil => rfl
  | cons q rest ih =>
    have hr : r ≠ q := fun he => h (he ▸ List.mem_cons_self q rest)
    have hrest : r ∉ rest := fun hm => h (List.mem_cons_of_mem q hm)
    simp only [createMissingDirs]
    split
    · exact ih fs hrest
    · rw [ih _ hrest, fsGet_fsSet_ne fs q Entry.dir r hr]

theorem mem_ancestorChain_length {a parent : PyPath} (h : a ∈ ancestorChain parent) :
    a.length ≤ parent.length := by
  simp only [ancestorChain, List.mem_map, List.mem_range] at h
  obtain ⟨k, hk, rfl⟩ := h
  rw [List.length_take]
  omega

theorem self_not_mem_ancestorChain (p : PyPath) (hne : p ≠ []) :
    p ∉ ancestorChain p.dropLast := by
  intro hmem
  have hlen := mem_ancestorChain_length hmem
  have hdl : p.dropLast.length = p.length - 1 := List.length_dropLast p
  have hpos : 0 < p.length := List.length_pos.mpr hne
  omega

/-- The concrete filesystem used to refute C6 as stated: the root and the
allow-listed directory `/tmp` exist. -/
def c6Fs : FS := [([], Entry.dir), ([("tmp" : String)], Entry.dir)]

/-- C6 counterexample: `/tmp` is an allow-listed path and `"x"` is a
one-character content, well under the truncation cap, yet
`write_file("/tmp", "x")` followed by `read_file("/tmp")` does not return
`"x"`: `/tmp` is an existing directory, so `path.write_text` raises
(caught, `status = "failed"`) and the read reports `Not a file` — the
claim's unqualified quantification over every allow-listed path fails. -/
theorem write_then_read_roundtrip_counterexample :
    is_path_allowed [("home" : String), "u"] [("tmp" : String)] = true ∧
    ("x" : String).length ≤ MAX_OUTPUT_SIZE ∧
    ¬((read_file [("home" : String), "u"]
        (write_file [("home" : String), "u"] c6Fs [("tmp" : String)] ("x")).2
        [("tmp" : String)]).status = "completed" ∧
      (read_file [("home" : String), "u"]
        (write_file [("home" : String), "u"] c6Fs [("tmp" : String)] ("x")).2
        [("tmp" : String)]).output = some ("x")) := by
  decide

/-- C6 amended: for every allow-listed path `p` and content within the
truncation cap, `write_file(p, content)` followed by `read_file(p)`
returns a completed result whose output is exactly `content` — provided
the write itself succeeds, i.e. no ancestor of `p` already exists as a
regular file and `p` itself is not an existing directory (and `p` is not
the bare filesystem root). -/
theorem write_then_read_roundtrip
    (home : PyPath) (fs : FS) (p : PyPath) (content : String)
    (hallow : is_path_allowed home p = true)
    (hlen : content.length ≤ MAX_OUTPUT_SIZE)
    (hmk : mkdirOk fs p.dropLast = true)
    (hnotdir : fsGet fs p ≠ some Entry.dir)
    (hne : p ≠ []) :
    (write_file home fs p content).1.status = "completed" ∧
    read_file home (write_file home fs p content).2 p
      = { status := "completed", output := some content, exit_code := some 0 } := by
  have hchain : p ∉ ancestorChain p.dropLast := self_not_mem_ancestorChain p hne
  have hfs2 : fsGet (createMissingDirs fs (ancestorChain p.dropLast)) p = fsGet fs p :=
    createMissingDirs_notmem (ancestorChain p.dropLast) fs p hchain
  have hwf : write_file home fs p content
      = ({ status := "completed",
           output := some ("Written " ++ toString content.length ++ " bytes to " ++ showPath p),
           exit_code := some 0 },
         fsSet (createMissingDirs fs (ancestorChain p.dropLast)) p (Entry.file content)) := by
    simp only [write_file, hallow, Bool.not_true, Bool.false_eq_true, if_false,
      mkdirParents, hmk, if_true]
    rw [hfs2]
    rcases hcase : fsGet fs p with _ | e
    · rfl
    · cases e with
      | file c => rfl
      | dir => exact absurd hcase hnotdir
  refine ⟨by rw [hwf], ?_⟩
  rw [hwf]
  simp only [read_file, hallow, Bool.not_true, Bool.false_eq_true, if_false]
  rw [fsGet_fsSet_self]
  simp only [truncateWith, Nat.not_lt.mpr hlen, if_false]

/-- The concrete filesystem for the C6 witness. -/
def c6wFs : FS := [([], Entry.dir), ([("tmp" : String)], Entry.dir)]

theorem write_then_read_roundtrip_witness :
    (write_file [("home" : String), "u"] c6wFs [("tmp" : String), "a.txt"] ("hi")).1.status
        = "completed" ∧
    read_file [("home" : String), "u"]
        (write_file [("home" : String), "u"] c6wFs [("tmp" : String), "a.txt"] ("hi")).2
        [("tmp" : String), "a.txt"]
      = { status := "completed", output := some ("hi"), exit_code := some 0 } :=
  write_then_read_roundtrip [("home" : String), "u"] c6wFs [("tmp" : String), "a.txt"] ("hi")
    (by decide) (by decide) (by decide) (by decide) (by decide)
